import Mathlib

/-!
Shallow embedding of the babytrack Analysis & Retrieval Engine:
`src/app/rag/analyzer.py`, `src/app/rag/indexer.py`, `src/app/rag/retriever.py`
and `src/app/api/routes/analysis.py`.

Modelling conventions:
* Python `datetime` values are rationals (seconds since an epoch aligned to a
  local midnight); `date` values are integer day numbers of the same epoch.
* Python `float` arithmetic is modelled exactly over `ℚ`.
* Python strings are Lean `String`s; `str.lower()` is modelled by ASCII case
  folding (all keywords and classifier inputs in the source are ASCII).
* External black boxes (the vector search, the Anthropic completion call, the
  database queries) are oracle parameters.
-/

namespace Babytrack

/-! ### Python string primitives -/

/-- Python `str.lower()` (ASCII case folding; the source only lowers ASCII
keyword text before matching). -/
def pyLower (s : String) : String := ⟨s.data.map Char.toLower⟩

/-- Python `str.strip()`: remove leading and trailing whitespace. -/
def pyStrip (s : String) : String :=
  ⟨((s.data.dropWhile Char.isWhitespace).reverse.dropWhile Char.isWhitespace).reverse⟩

/-- Python `needle in hay` on strings: substring test. -/
def pyIn (needle hay : String) : Bool := decide (needle.data <:+: hay.data)

/-- Python `sep.join(parts)`. -/
def pyJoin (sep : String) : List String → String
  | [] => ""
  | [p] => p
  | p :: ps => p ++ sep ++ pyJoin sep ps

/-! ### Mode classifier (`src/app/rag/analyzer.py`, lines 25-36) -/

/-- `_REPORT_KEYWORDS` from `analyzer.py` (a Python set literal, kept in
source order; `any` does not depend on the order). -/
def _REPORT_KEYWORDS : List String :=
  ["analyze", "analyse", "analysis", "report", "bilan",
   "full report", "detailed", "rapport", "complet"]

/-- `_is_report_request` from `analyzer.py`: `None` or empty question defaults
to a full report, otherwise keyword substring match on the lower-cased,
stripped question. -/
def _is_report_request (question : Option String) : Bool :=
  match question with
  | none => true
  | some q0 =>
    if q0 = "" then true
    else
      let q := pyStrip (pyLower q0)
      _REPORT_KEYWORDS.any (fun kw => pyIn kw q)

/-! ### Route-side mode classifier (`src/app/api/routes/analysis.py`,
lines 315-321) -/

/-- The keyword set local to `_is_report_request_label` in `analysis.py`
(no `"full report"` entry). -/
def report_kw : List String :=
  ["analyze", "analyse", "analysis", "report", "bilan",
   "detailed", "rapport", "complet"]

/-- `_is_report_request_label` from `analysis.py`: the route's independent
copy of the classifier. -/
def _is_report_request_label (question : Option String) : Bool :=
  match question with
  | none => true
  | some q0 =>
    if q0 = "" then true
    else
      let q := pyStrip (pyLower q0)
      report_kw.any (fun kw => pyIn kw q)

/-! ### Python numeric primitives -/

/-- Python built-in `round(x)`: round half to even (banker's rounding),
modelled exactly over `ℚ`. -/
def pyRound (x : ℚ) : ℤ :=
  let n := ⌊x⌋
  let frac := x - (n : ℚ)
  if frac < 1 / 2 then n
  else if 1 / 2 < frac then n + 1
  else if n % 2 = 0 then n else n + 1

/-- Python `round(x, 3)` (used for similarity scores). -/
def pyRound3 (x : ℚ) : ℚ := ((pyRound (x * 1000) : ℚ)) / 1000

/-- Python integer floor division `//`. -/
def pyFloorDiv (a b : ℤ) : ℤ := Int.fdiv a b

/-- `t.date()` for a datetime `t` (seconds since the epoch): the day number. -/
def dayOf (t : ℚ) : ℤ := ⌊t / 86400⌋

/-- `datetime(now.year, now.month, now.day, 0, 0, 0)`: midnight of the day
containing `t`. -/
def midnightOf (t : ℚ) : ℚ := (dayOf t : ℚ) * 86400

/-! ### Age-based expected feeding rate (`analyzer.py`, lines 54-63) -/

/-- `_expected_feedings_per_hour` from `analyzer.py`: approximate
feedings/hour by age in days. -/
def _expected_feedings_per_hour (age_days : ℤ) : ℚ :=
  if age_days < 30 then 9 / 24
  else if age_days < 60 then 7.5 / 24
  else if age_days < 120 then 6 / 24
  else 5 / 24

/-! ### Knowledge index builder (`src/app/rag/indexer.py`)

The documents, the persisted index files, and the embedding model are external
resources; the filesystem state relevant to `build_index`/`load_index` is
whether `index_dir` exists, whether `index_dir/docstore.json` (with the rest
of the persisted index) exists, and which supported documents live under
`docs_dir`.  A `VectorStoreIndex` built from documents is modelled as the
document list itself. -/

/-- A source document (content of one supported file under `docs_dir`). -/
abbrev Doc := String

/-- A vector index, modelled by the documents it was built from. -/
abbrev Index := List Doc

/-- The Python exceptions raised by the indexer.  Both `load_index` and
`build_index` raise the builtin `FileNotFoundError`, with different
messages. -/
inductive PyError where
  | fileNotFoundError (msg : String)
deriving DecidableEq

/-- The Python class name of a raised exception. -/
def PyError.className : PyError → String
  | .fileNotFoundError _ => "FileNotFoundError"

/-- Message of the `FileNotFoundError` raised by `load_index`
(source text: Index introuvable dans ... Lance build_index() d abord). -/
def indexNotFoundMsg : String :=
  "Index introuvable dans {index_dir}. Lance build_index() d abord."

/-- Message of the `FileNotFoundError` raised by `build_index`
(source text: Aucun document trouve dans ...). -/
def noDocumentsMsg : String := "Aucun document trouve dans {docs_dir}"

/-- Filesystem state seen by the indexer at a fixed `(docs_dir, index_dir)`
pair. -/
structure FS where
  /-- whether the directory `index_dir` itself exists -/
  dirExists : Bool
  /-- the index persisted at `index_dir`
      (`(index_dir / "docstore.json").exists()` iff `isSome`) -/
  persisted : Option Index
  /-- the supported documents (`.md`, `.pdf`, `.txt`) found recursively
      under `docs_dir` -/
  docs : List Doc
deriving DecidableEq

/-- `load_index` from `indexer.py`: load a persisted index, raising
`FileNotFoundError` when `index_dir/docstore.json` is absent. -/
def load_index (fs : FS) : Except PyError Index :=
  match fs.persisted with
  | none => .error (.fileNotFoundError indexNotFoundMsg)
  | some idx => .ok idx

/-- `build_index` from `indexer.py`.  Returns the result together with the
filesystem state after the call (`index_dir.mkdir(parents=True, exist_ok=True)`
runs first; on the cache-hit path the persisted index is loaded unchanged; on
the build path the fresh index is persisted). -/
def build_index (fs : FS) (force_rebuild : Bool) : Except PyError Index × FS :=
  let fs1 : FS := { fs with dirExists := true }
  match force_rebuild, fs1.persisted with
  | false, some idx => (.ok idx, fs1)
  | _, _ =>
    if fs1.docs = [] then (.error (.fileNotFoundError noDocumentsMsg), fs1)
    else (.ok fs1.docs, { fs1 with persisted := some fs1.docs })

/-! ### Retriever (`src/app/rag/retriever.py`) -/

/-- A `NodeWithScore` returned by the vector retriever: chunk text, the
`file_name` metadata entry (absent when the loader recorded none), and an
optional similarity score. -/
structure NodeWithScore where
  text : String
  file_name : Option String
  score : Option ℚ
deriving DecidableEq

/-- The black-box nearest-neighbour search
(`index.as_retriever(similarity_top_k=top_k).retrieve(query)`). -/
abbrev Search := Index → String → ℕ → List NodeWithScore

/-- `retrieve_context` from `retriever.py`.  Returns the result, the
filesystem state after the call, and — as proof instrumentation — whether the
call attempted `build_index` (the `except FileNotFoundError` fallback). -/
def retrieve_context (search : Search) (query : String) (top_k : ℕ)
    (index : Option Index) (fs : FS) :
    Except PyError (List NodeWithScore) × FS × Bool :=
  match index with
  | some idx => (.ok (search idx query top_k), fs, false)
  | none =>
    match load_index fs with
    | .ok idx => (.ok (search idx query top_k), fs, false)
    | .error _ =>
      match build_index fs false with
      | (.ok idx, fs2) => (.ok (search idx query top_k), fs2, true)
      | (.error e, fs2) => (.error e, fs2, true)

/-- `true` iff a retrieval outcome is a raised exception. -/
def retrievalErred : Except PyError (List NodeWithScore) → Bool
  | .error _ => true
  | .ok _ => false

/-- A process lifetime of `n` successive `retrieve_context` calls at one
index location, threading the filesystem state; returns the total number of
`build_index` attempts made, and the final state. -/
def retrieveProcess (search : Search) (query : String) (top_k : ℕ)
    (index : Option Index) : ℕ → FS → ℕ × FS
  | 0, fs => (0, fs)
  | n + 1, fs =>
    let r := retrieve_context search query top_k index fs
    let rest := retrieveProcess search query top_k index n r.2.1
    ((if r.2.2 then 1 else 0) + rest.1, rest.2)

/-! ### Domain records (`src/app/models/{baby,feeding,weight}.py`)

Only the fields read by the analysis engine are modelled. -/

/-- `Baby` (pydantic model): `birth_date` is a `date`, modelled as a day
number. -/
structure Baby where
  name : String
  birth_date : ℤ
  birth_weight_grams : ℤ
deriving DecidableEq

/-- `Feeding` (pydantic model). `feeding_type` is the enum value string
(`"bottle"` or `"breastfeeding"`). -/
structure Feeding where
  fed_at : ℚ
  quantity_ml : ℤ
  feeding_type : String
  notes : Option String
deriving DecidableEq

/-- `Weight` (pydantic model). -/
structure Weight where
  measured_at : ℚ
  weight_g : ℤ
  notes : Option String
deriving DecidableEq

/-- The Python rendering primitives used in f-strings: `strftime` patterns
and fixed-precision float formatting.  Pure calendar/decimal rendering, kept
abstract; every theorem below holds for all renderings. -/
structure PyFmt where
  /-- `strftime("%d/%m %H:%M")` -/
  dmhm : ℚ → String
  /-- `strftime("%H:%M")` -/
  hm : ℚ → String
  /-- `strftime("%d/%m/%Y")` -/
  dmy : ℚ → String
  /-- `strftime("%d/%m/%Y %H:%M")` -/
  dmyhm : ℚ → String
  /-- `"{x:.0f}"` -/
  f0 : ℚ → String
  /-- `"{x:.1f}"` -/
  f1 : ℚ → String
  /-- `"{x:.3f}"` -/
  f3 : ℚ → String

/-- Python `str(x)` on an `Optional[str]` interpolated into an f-string
(`None` renders as `"None"`). -/
def pyStrOpt : Option String → String
  | some s => s
  | none => "None"

/-- `AnalysisContext` from `analyzer.py` (lines 41-51).  The source field
`end` is a Lean keyword and is written `«end»`; the source field `is_partial`
is written `partial_flag`. -/
structure AnalysisContext where
  start : ℚ
  «end» : ℚ
  /-- source name: is_partial (window is still ongoing, end close to now) -/
  partial_flag : Bool
  /-- length of the window in hours -/
  hours_elapsed : ℚ
  /-- age-based estimate for the full window -/
  feedings_expected : ℤ
  /-- feedings in the previous equivalent window -/
  baseline_count : ℕ
  /-- total ml in the previous equivalent window -/
  baseline_volume_ml : ℤ
  /-- human-readable label for the baseline window -/
  baseline_label : String
deriving DecidableEq

/-! ### Retriever output formatting (`retriever.py`, lines 48-61) -/

/-- The fixed sentinel returned by `format_context` on an empty passage
list. -/
def noContextSentinel : String := "Aucun contexte médical disponible."

/-- The numbered context blocks built by `format_context`
(`enumerate(nodes, 1)`). -/
def formatParts (fmt : PyFmt) : ℕ → List NodeWithScore → List String
  | _, [] => []
  | i, node :: rest =>
    let score := match node.score with
      | some s => PyFmt.f3 fmt s
      | none => "N/A"
    let source := node.file_name.getD "source inconnue"
    ("--- Extrait " ++ toString i ++ " (source: " ++ source ++ ", score: "
        ++ score ++ ") ---\n" ++ pyStrip node.text)
      :: formatParts fmt (i + 1) rest

/-- `format_context` from `retriever.py`: the context block handed to the
prompt, or the fixed no-context sentinel for an empty list. -/
def format_context (fmt : PyFmt) (nodes : List NodeWithScore) : String :=
  if nodes = [] then noContextSentinel
  else pyJoin "\n\n" (formatParts fmt 1 nodes)

/-! ### Summarisers (`analyzer.py`, lines 68-144) -/

/-- `_summarize_feedings` from `analyzer.py`.  The Python `set` of feeding
types iterates in an implementation order; the fallback `", ".join(types)`
is modelled with first-occurrence order. -/
def _summarize_feedings (fmt : PyFmt) (feedings : List Feeding) : String :=
  if feedings = [] then "No feedings recorded for this period."
  else
    let total_ml := (feedings.map (·.quantity_ml)).sum
    let count := feedings.length
    let types := (feedings.map (·.feeding_type)).dedup
    let type_label :=
      if types.toFinset = {"bottle"} then "bottle only"
      else if types.toFinset = {"breastfeeding"} then "breastfeeding only"
      else if types.toFinset = {"bottle", "breastfeeding"} then
        "mixed (bottle + breastfeeding)"
      else pyJoin ", " types
    -- Counter keyed by fed_at.date().isoformat(); only the key set is used
    let days_with_data := ((feedings.map (fun f => dayOf f.fed_at)).dedup).length
    let avg_feeds_per_day : ℚ :=
      if days_with_data ≠ 0 then (count : ℚ) / (days_with_data : ℚ) else 0
    let avg_ml_per_day : ℚ :=
      if days_with_data ≠ 0 then (total_ml : ℚ) / (days_with_data : ℚ) else 0
    let lines :=
      (feedings.mergeSort (fun a b => decide (a.fed_at ≤ b.fed_at))).map
        (fun f =>
          "- " ++ PyFmt.dmhm fmt f.fed_at ++ " : " ++ toString f.quantity_ml
            ++ " ml (" ++ f.feeding_type ++ ")"
            ++ (match f.notes with
                | some n => if n = "" then "" else " — note: " ++ n
                | none => ""))
    "Number of feedings: " ++ toString count ++ " over "
      ++ toString days_with_data ++ " days with recorded data\n"
      ++ "Average: " ++ PyFmt.f1 fmt avg_feeds_per_day ++ " feeds/day, "
      ++ PyFmt.f0 fmt avg_ml_per_day ++ " ml/day "
      ++ "(computed from days with entries only)\n"
      ++ "Total volume: " ++ toString total_ml ++ " ml\n"
      ++ "Feeding type: " ++ type_label ++ "\n"
      ++ "Chronological detail:\n" ++ pyJoin "\n" lines

/-- `_summarize_weights` from `analyzer.py`. -/
def _summarize_weights (fmt : PyFmt) (weights : List Weight) : String :=
  if weights = [] then ""
  else
    pyJoin "\n"
      ((weights.mergeSort (fun a b => decide (a.measured_at ≤ b.measured_at))).map
        (fun w =>
          "- " ++ PyFmt.dmhm fmt w.measured_at ++ ": " ++ toString w.weight_g ++ "g"
            ++ (match w.notes with
                | some n => if n = "" then "" else " — note: " ++ n
                | none => "")))

/-- `_extract_contextual_events` from `analyzer.py`: all non-empty notes in
chronological order. -/
def _extract_contextual_events (fmt : PyFmt) (feedings : List Feeding)
    (weights : List Weight) : String :=
  let events : List (ℚ × String × String) :=
    (feedings.filterMap (fun f =>
      match f.notes with
      | some n => if n ≠ "" ∧ pyStrip n ≠ "" then some (f.fed_at, "feeding", pyStrip n) else none
      | none => none))
    ++ (weights.filterMap (fun w =>
      match w.notes with
      | some n => if n ≠ "" ∧ pyStrip n ≠ "" then some (w.measured_at, "weight", pyStrip n) else none
      | none => none))
  if events = [] then ""
  else
    pyJoin "\n"
      ((events.mergeSort (fun a b => decide (a.1 ≤ b.1))).map
        (fun e => "- " ++ PyFmt.dmhm fmt e.1 ++ " [" ++ e.2.1 ++ "]: " ++ e.2.2))

/-! ### Prompt builder (`analyzer.py`, lines 149-252)

Multi-line Python f-strings are written as explicit concatenations with the
same characters; ASCII apostrophes inside source string literals are
transliterated to the typographic apostrophe. -/

/-- The fixed grounding instruction block shared by both modes. -/
def groundingBlock : String :=
  "## Instructions\n1. First, extract from the medical references above the recommended ranges for this baby’s age: feeds/day, ml/feed, total ml/day, expected weight gain.\n2. Compare the baby’s actual data against those reference ranges.\n3. If any metric is below the recommended minimum, flag it clearly — never tell a parent a below-minimum value is normal.\n4. Do not state that data is \"appropriate\" or \"on track\" without citing the specific reference range that supports it."

/-- `_build_prompt` from `analyzer.py`.  `today` is `date.today()` as a day
number; a `weights=None` argument is modelled as `[]` (both are falsy in
every use the function makes of it). -/
def _build_prompt (fmt : PyFmt) (today : ℤ) (baby : Baby)
    (feedings : List Feeding) (rag_context : String) (ctx : AnalysisContext)
    (weights : List Weight) (question : Option String) : String :=
  let feeding_summary := _summarize_feedings fmt feedings
  let age_days : ℤ := today - baby.birth_date
  let age_weeks : ℤ := pyFloorDiv age_days 7
  let age_months : ℤ := pyFloorDiv age_days 30
  let age_str :=
    if age_days < 14 then toString age_days ++ " days"
    else if age_weeks < 8 then toString age_weeks ++ " weeks"
    else toString age_months ++ " months"
  let partial_note :=
    if ctx.partial_flag then
      let pace : ℚ :=
        if 0 < ctx.hours_elapsed then (feedings.length : ℚ) / ctx.hours_elapsed else 0
      let projected := pyRound (pace * 24)
      "⏳ PARTIAL: " ++ toString feedings.length ++ " feeds in "
        ++ PyFmt.f0 fmt ctx.hours_elapsed ++ "h → ~" ++ toString projected
        ++ "/day pace. Evaluate rate, not totals."
    else "✅ Complete window."
  let baseline_note :=
    if 0 < ctx.baseline_count then
      toString ctx.baseline_count ++ " feeds / " ++ toString ctx.baseline_volume_ml
        ++ "ml (previous equivalent period)"
    else "No previous data to compare."
  let temporal_section :=
    "## Window\n" ++ PyFmt.dmhm fmt ctx.start ++ " → " ++ PyFmt.dmhm fmt ctx.«end»
      ++ " (" ++ PyFmt.f0 fmt ctx.hours_elapsed ++ "h) | " ++ partial_note
      ++ "\nBaseline: " ++ baseline_note ++ "\n"
  let contextual_events := _extract_contextual_events fmt feedings weights
  let context_section :=
    if contextual_events ≠ "" then "## Parent notes\n" ++ contextual_events ++ "\n\n"
    else ""
  let weight_section :=
    if weights ≠ [] then "\n## Weight measurements\n" ++ _summarize_weights fmt weights ++ "\n"
    else ""
  let feeds_per_day_expected := pyRound (_expected_feedings_per_hour age_days * 24)
  let norms_note :=
    "Age-based estimate: ~" ++ toString feeds_per_day_expected ++ " feeds/day for a "
      ++ age_str ++ " old infant."
  let data_block :=
    "## Medical reference context (WHO / SFP)\n" ++ rag_context
      ++ "\n\n## Baby profile\n- Name: " ++ baby.name
      ++ "\n- Age: " ++ age_str ++ " (" ++ toString age_days ++ " days)"
      ++ "\n- Birth weight: " ++ toString baby.birth_weight_grams ++ " g"
      ++ "\n- " ++ norms_note ++ "\n" ++ weight_section
      ++ "\n" ++ temporal_section
      ++ "\n" ++ context_section
      ++ "## Feeding data — " ++ PyFmt.dmyhm fmt ctx.start ++ " to "
      ++ PyFmt.dmyhm fmt ctx.«end» ++ "\n" ++ feeding_summary
  if _is_report_request question then
    data_block ++ "\n\n" ++ groundingBlock ++ "\n\n## Output format\n**✅ Positive:** What’s going well (cite reference ranges).\n**⚠️ Concerns:** "
      ++ (if ctx.partial_flag then "Pace off-track vs references?"
          else "Any metric outside reference ranges?")
      ++ "\n**💡 Action:** 2–3 concrete steps.\n**📊 Summary:** One sentence.\n"
  else
    data_block ++ "\n\n" ++ groundingBlock ++ "\n\n## Parent’s question\n"
      ++ pyStrOpt question
      ++ "\n\nAnswer the parent’s question directly, citing reference values when relevant.\n"

/-! ### Analysis orchestrator (`analyzer.py`, lines 255-369) -/

/-- `ANALYZER_MAX_TOKENS` default. -/
def MAX_TOKENS : ℕ := 1200

/-- Token budget in conversational mode. -/
def MAX_TOKENS_CONVERSATIONAL : ℕ := 400

/-- One entry of the `sources` list built from retrieved nodes. -/
structure SourceRef where
  source : String
  score : Option ℚ

/-- The request `analyze_feedings` hands to the external reasoning service,
together with the retrieval artefacts it derived on the way.  The
`messages.create` call itself and the returned text are external. -/
structure AnalyzeCall where
  query : String
  rag_context : String
  sources : List SourceRef
  prompt : String
  system : String
  max_tokens : ℕ
  temperature : ℚ

/-- The disclaimer appended to both system messages. -/
def disclaimerText : String :=
  "Always end your response with: ’This is not medical advice — consult your pediatrician for any concerns.’"

/-- `analyze_feedings` from `analyzer.py`.  The call
`retrieve_context(**kwargs)` together with `format_context` sits behind the
`retrieval` oracle: `.ok nodes` is a successful retrieval, `.error e` an
exception raised inside the `try` block; the `except Exception` handler is
the `.error` branch below, so no retrieval failure escapes.  `today` is
`date.today()` as a day number. -/
def analyze_feedings (fmt : PyFmt) (today : ℤ) (baby : Baby)
    (feedings : List Feeding) (ctx : AnalysisContext) (weights : List Weight)
    (question : Option String)
    (retrieval : Except String (List NodeWithScore)) : AnalyzeCall :=
  let age_days : ℤ := today - baby.birth_date
  let feeding_types :=
    if feedings = [] then ["bottle"] else (feedings.map (·.feeding_type)).dedup
  let age_query :=
    if age_days < 14 then toString age_days ++ " days old newborn"
    else if age_days < 60 then toString (pyFloorDiv age_days 7) ++ " weeks old infant"
    else toString (pyFloorDiv age_days 30) ++ " months old infant"
  let feed_type :=
    if feeding_types.contains "bottle" then "bottle formula" else "breastfeeding"
  let query :=
    match question with
    | some q0 =>
      if q0 ≠ "" ∧ _is_report_request (some q0) = false then
        q0 ++ " " ++ age_query ++ " " ++ feed_type
      else "recommended feeding frequency volume " ++ age_query ++ " " ++ feed_type
    | none => "recommended feeding frequency volume " ++ age_query ++ " " ++ feed_type
  let rc : String × List SourceRef :=
    match retrieval with
    | .ok nodes =>
      (format_context fmt nodes,
        nodes.map (fun node =>
          { source := node.file_name.getD "unknown"
            score := node.score.map pyRound3 }))
    | .error _exc => ("Medical context unavailable.", [])
  let rag_context := rc.1
  let sources := rc.2
  let prompt := _build_prompt fmt today baby feedings rag_context ctx weights question
  let is_report := _is_report_request question
  if is_report then
    { query := query, rag_context := rag_context, sources := sources
      prompt := prompt
      system := "You are a pediatric nutrition assistant. Analyse the data and produce a structured report. Be factual and precise. Always compare the baby’s data against the reference ranges from the provided medical documents. Never state that a value is normal without citing the reference range. Keep each section short — no filler, no exaggeration. " ++ disclaimerText
      max_tokens := MAX_TOKENS, temperature := 0.2 }
  else
    { query := query, rag_context := rag_context, sources := sources
      prompt := prompt
      system := "You are a pediatric nutrition assistant helping a parent. Answer in 2-4 short sentences. Be warm but factual. No headers, no bullet lists, no emojis, no markdown formatting. Always compare the baby’s data against the reference ranges from the provided medical documents. Never state that a value is normal without citing the reference range. If something is concerning, say so plainly without dramatising. " ++ disclaimerText
      max_tokens := MAX_TOKENS_CONVERSATIONAL, temperature := 0.2 }

/-! ### Analysis endpoint (`src/app/api/routes/analysis.py`, lines 62-196)

The endpoint model starts after the baby lookup (a missing baby is a
caller-side 404 outside the analysis logic).  The database queries are
oracles.  The source also fetches diapers and, in the revision of
`analysis.py` under `src/`, forwards `diapers=`/`chat_history=` keyword
arguments that the `analyzer.py` revision under `src/` does not declare;
no claim touches the diaper data, so the model composes the two files on
their shared parameters. -/

/-- `_PARTIAL_THRESHOLD_MINUTES` from `analysis.py`. -/
def _PARTIAL_THRESHOLD_MINUTES : ℚ := 30

/-- The `HTTPException`s raised by the endpoint body. -/
inductive HTTPError where
  | badRequest (detail : String)
  | notFound (detail : String)
deriving DecidableEq

/-- Python truthiness of the optional question (`not question`): `None` and
the empty string are falsy. -/
def questionFalsy : Option String → Bool
  | none => true
  | some q => q = ""

/-- What a successful pass through the endpoint body produces on its way to
the reasoning service: the temporal context, the baseline window bounds it
derived, the feedings handed to the orchestrator, and the orchestrator
call. -/
structure RouteOk where
  ctx : AnalysisContext
  baseline_start : ℚ
  baseline_end : ℚ
  feedings : List Feeding
  call : AnalyzeCall

/-- `analyze_baby_feedings` from `analysis.py` (the `/analysis/baby_id`
endpoint body), up to the reasoning-service call. -/
def analyze_baby_feedings (fmt : PyFmt)
    (dbFeedings : ℚ → ℚ → List Feeding)
    (dbWeights : ℤ → ℤ → List Weight)
    (retrieval : Except String (List NodeWithScore))
    (baby : Baby) (now : ℚ) (start? end? : Option ℚ)
    (question : Option String) : Except HTTPError RouteOk :=
  let end_dt := end?.getD now
  let start_dt := start?.getD (midnightOf now)
  if end_dt ≤ start_dt then
    .error (.badRequest "’end’ must be after ’start’")
  else
    let partial_flag : Bool := decide (now - end_dt < _PARTIAL_THRESHOLD_MINUTES * 60)
    let hours_elapsed : ℚ := (end_dt - start_dt) / 3600
    let feedings := dbFeedings start_dt end_dt
    if feedings = [] ∧ questionFalsy question = true then
      .error (.notFound ("No feedings recorded between "
        ++ PyFmt.dmhm fmt start_dt ++ " and " ++ PyFmt.dmhm fmt end_dt))
    else
      let baseline_start := start_dt - hours_elapsed * 3600
      let baseline_end := start_dt
      let baseline_feedings := dbFeedings baseline_start baseline_end
      let baseline_count := baseline_feedings.length
      let baseline_volume := (baseline_feedings.map (·.quantity_ml)).sum
      let same_day_baseline := dayOf baseline_start = dayOf baseline_end
      let baseline_label :=
        if same_day_baseline then
          PyFmt.dmhm fmt baseline_start ++ " → " ++ PyFmt.hm fmt baseline_end
        else
          PyFmt.dmhm fmt baseline_start ++ " → " ++ PyFmt.dmhm fmt baseline_end
      let age_days := dayOf now - baby.birth_date
      let rate := _expected_feedings_per_hour age_days
      let feedings_expected := max 1 (pyRound (rate * hours_elapsed))
      let ctx : AnalysisContext :=
        { start := start_dt
          «end» := end_dt
          partial_flag := partial_flag
          hours_elapsed := hours_elapsed
          feedings_expected := feedings_expected
          baseline_count := baseline_count
          baseline_volume_ml := baseline_volume
          baseline_label := baseline_label }
      let weights := dbWeights (dayOf (end_dt - 30 * 86400)) (dayOf end_dt)
      .ok
        { ctx := ctx
          baseline_start := baseline_start
          baseline_end := baseline_end
          feedings := feedings
          call := analyze_feedings fmt (dayOf now) baby feedings ctx weights
            question retrieval }

/-! ### Concrete fixtures used to instantiate universally quantified
theorems -/

/-- A rendering structure whose formatters all return the empty string. -/
def fmt0 : PyFmt :=
  { dmhm := fun _ => "", hm := fun _ => "", dmy := fun _ => ""
    dmyhm := fun _ => "", f0 := fun _ => "", f1 := fun _ => "", f3 := fun _ => "" }

/-- A sample baby born on day 0. -/
def baby0 : Baby := { name := "Lea", birth_date := 0, birth_weight_grams := 3200 }

/-- A sample bottle feeding at 01:00 on day 0. -/
def feeding0 : Feeding :=
  { fed_at := 3600, quantity_ml := 120, feeding_type := "bottle", notes := none }

/-- A feedings query returning one feeding for every window. -/
def dbF0 : ℚ → ℚ → List Feeding := fun _ _ => [feeding0]

/-- A feedings query returning no feedings for any window. -/
def dbFempty : ℚ → ℚ → List Feeding := fun _ _ => []

/-- A weights query returning no measurements. -/
def dbW0 : ℤ → ℤ → List Weight := fun _ _ => []

/-- A sample retrieved passage. -/
def node0 : NodeWithScore :=
  { text := "Guideline text", file_name := some "who_guidelines.md", score := some (9 / 10) }

/-- A search oracle returning no passages. -/
def search0 : Search := fun _ _ _ => []

/-! ## Helper lemmas -/

theorem data_append (a b : String) : (a ++ b).data = a.data ++ b.data := rfl

theorem pyIn_iff {n h : String} : pyIn n h = true ↔ n.data <:+: h.data := by
  simp [pyIn]

theorem pyIn_self (q : String) : pyIn q q = true := by
  simp [pyIn]

theorem pyIn_trans {a b c : String} (h1 : pyIn a b = true)
    (h2 : pyIn b c = true) : pyIn a c = true := by
  rw [pyIn_iff] at h1 h2 ⊢
  exact h1.trans h2

theorem pyIn_append_left {q a : String} (b : String) (h : pyIn q a = true) :
    pyIn q (a ++ b) = true := by
  rw [pyIn_iff] at h ⊢
  rw [data_append]
  exact h.trans (List.prefix_append a.data b.data).isInfix

theorem pyIn_append_right (a : String) {q b : String} (h : pyIn q b = true) :
    pyIn q (a ++ b) = true := by
  rw [pyIn_iff] at h ⊢
  rw [data_append]
  exact h.trans (List.suffix_append a.data b.data).isInfix

theorem pyIn_pyJoin {sep p : String} {parts : List String} (hp : p ∈ parts) :
    p.data <:+: (pyJoin sep parts).data := by
  induction parts with
  | nil => cases hp
  | cons a rest ih =>
    cases rest with
    | nil =>
      rw [List.mem_singleton] at hp
      subst hp
      exact List.infix_rfl
    | cons b rest2 =>
      rcases List.mem_cons.mp hp with h | h
      · subst h
        show p.data <:+: (p ++ sep ++ pyJoin sep (b :: rest2)).data
        rw [data_append, data_append]
        exact ((List.prefix_append p.data sep.data).trans
          (List.prefix_append _ _)).isInfix
      · have hi := ih h
        show p.data <:+: (a ++ sep ++ pyJoin sep (b :: rest2)).data
        rw [data_append]
        exact hi.trans (List.suffix_append _ _).isInfix

/-! ## Claim theorems -/

/-- C1: the mode classifier returns `True` on a missing or empty question;
on any other question it is exactly the keyword-substring test on the
lower-cased, trimmed text over the fixed keyword set, which contains
"analyze", "report", the "summary"/"bilan" item (realised by "bilan"), and
"detailed"; and the two documented examples behave as stated. -/
theorem C1_mode_classifier (q : String) (hq : q ≠ "") :
    _is_report_request none = true
    ∧ _is_report_request (some "") = true
    ∧ _is_report_request (some q)
        = _REPORT_KEYWORDS.any (fun kw => pyIn kw (pyStrip (pyLower q)))
    ∧ ("analyze" ∈ _REPORT_KEYWORDS ∧ "report" ∈ _REPORT_KEYWORDS
        ∧ ("summary" ∈ _REPORT_KEYWORDS ∨ "bilan" ∈ _REPORT_KEYWORDS)
        ∧ "detailed" ∈ _REPORT_KEYWORDS)
    ∧ _is_report_request (some "give me a detailed report") = true
    ∧ _is_report_request (some "is she eating enough?") = false := by
  refine ⟨rfl, by decide, ?_, by decide, by decide, by decide⟩
  simp [_is_report_request, hq]

/-- Witness for C1 at the concrete question "hello". -/
theorem C1_mode_classifier_witness :
    _is_report_request none = true
    ∧ _is_report_request (some "") = true
    ∧ _is_report_request (some "hello")
        = _REPORT_KEYWORDS.any (fun kw => pyIn kw (pyStrip (pyLower "hello")))
    ∧ ("analyze" ∈ _REPORT_KEYWORDS ∧ "report" ∈ _REPORT_KEYWORDS
        ∧ ("summary" ∈ _REPORT_KEYWORDS ∨ "bilan" ∈ _REPORT_KEYWORDS)
        ∧ "detailed" ∈ _REPORT_KEYWORDS)
    ∧ _is_report_request (some "give me a detailed report") = true
    ∧ _is_report_request (some "is she eating enough?") = false :=
  C1_mode_classifier "hello" (by decide)

/-- C10: the analyzer classifier and the route classifier agree on every
input: the only keyword-set difference is "full report", and any question
containing "full report" also contains "report". -/
theorem C10_classifiers_agree (q : Option String) :
    _is_report_request q = _is_report_request_label q := by
  cases q with
  | none => rfl
  | some s =>
    by_cases hs : s = ""
    · simp [_is_report_request, _is_report_request_label, hs]
    · simp only [_is_report_request, _is_report_request_label, if_neg hs]
      by_cases hfr : pyIn "full report" (pyStrip (pyLower s)) = true
      · have hr : pyIn "report" (pyStrip (pyLower s)) = true :=
          pyIn_trans (by decide) hfr
        simp [_REPORT_KEYWORDS, report_kw, hfr, hr]
      · have hfr' : pyIn "full report" (pyStrip (pyLower s)) = false :=
          Bool.eq_false_iff.mpr hfr
        simp [_REPORT_KEYWORDS, report_kw, hfr']

/-- C2 counterexample: with no pre-loaded index, no persisted index and no
documents, a process making two `retrieve_context` calls attempts the build
twice (not at most once), and the second call raises instead of returning a
degraded empty result. -/
theorem C2_counterexample :
    (retrieveProcess search0 "q" 4 none 2 ⟨false, none, []⟩).1 = 2
    ∧ retrievalErred
        (retrieve_context search0 "q" 4 none
          (retrieve_context search0 "q" 4 none ⟨false, none, []⟩).2.1).1 = true := by
  constructor <;> rfl

/-- A single `retrieve_context` call on a state with no persisted index and
no documents: the build is attempted, fails, and the miss state persists. -/
theorem retrieve_miss_step (search : Search) (query : String) (top_k : ℕ)
    (fs : FS) (h1 : fs.persisted = none) (h2 : fs.docs = []) :
    retrieve_context search query top_k none fs
      = (.error (.fileNotFoundError noDocumentsMsg), ⟨true, none, []⟩, true) := by
  obtain ⟨d, p, dc⟩ := fs
  simp only at h1 h2
  subst h1
  subst h2
  rfl

/-- C2 (amended): `retrieve_context` holds no per-process guard — every call
without a pre-loaded index whose `load_index` misses re-attempts
`build_index`, a failed build raises `FileNotFoundError` to the caller
rather than returning degraded empty context, and `n` successive calls in
one process make `n` build attempts. -/
theorem C2_retrieve_reattempts (search : Search) (query : String) (top_k : ℕ)
    (fs : FS) (h1 : fs.persisted = none) (h2 : fs.docs = []) :
    (retrieve_context search query top_k none fs).2.2 = true
    ∧ retrievalErred (retrieve_context search query top_k none fs).1 = true
    ∧ ∀ n, (retrieveProcess search query top_k none n fs).1 = n := by
  have step := retrieve_miss_step search query top_k
  refine ⟨by rw [step fs h1 h2], by rw [step fs h1 h2]; rfl, ?_⟩
  have proc : ∀ n (fs2 : FS), fs2.persisted = none → fs2.docs = [] →
      (retrieveProcess search query top_k none n fs2).1 = n := by
    intro n
    induction n with
    | zero => intro fs2 _ _; rfl
    | succ k ih =>
      intro fs2 g1 g2
      simp [retrieveProcess, step fs2 g1 g2, ih ⟨true, none, []⟩ rfl rfl,
        Nat.add_comm]
  exact fun n => proc n fs h1 h2

/-- Witness for C2 (amended) at a concrete empty filesystem and a
three-call process. -/
theorem C2_retrieve_reattempts_witness :
    (retrieve_context search0 "q" 4 none ⟨false, none, []⟩).2.2 = true
    ∧ retrievalErred (retrieve_context search0 "q" 4 none ⟨false, none, []⟩).1 = true
    ∧ (retrieveProcess search0 "q" 4 none 3 ⟨false, none, []⟩).1 = 3 := by
  have h := C2_retrieve_reattempts search0 "q" 4 ⟨false, none, []⟩ rfl rfl
  exact ⟨h.1, h.2.1, h.2.2 3⟩

/-- C6: with `force_rebuild=false` and a persisted index present,
`build_index` returns exactly what `load_index` returns and leaves the
filesystem unchanged, so repeated builds with unchanged inputs are
idempotent. -/
theorem C6_build_cache_hit (fs : FS) (idx : Index)
    (hidx : fs.persisted = some idx) (hdir : fs.dirExists = true) :
    build_index fs false = (load_index fs, fs)
    ∧ load_index fs = .ok idx := by
  obtain ⟨d, p, dc⟩ := fs
  simp only at hidx hdir
  subst hidx
  subst hdir
  exact ⟨rfl, rfl⟩

/-- Witness for C6 at a concrete cached filesystem. -/
theorem C6_build_cache_hit_witness :
    build_index ⟨true, some ["doc"], ["doc"]⟩ false
      = (load_index ⟨true, some ["doc"], ["doc"]⟩, ⟨true, some ["doc"], ["doc"]⟩)
    ∧ load_index ⟨true, some ["doc"], ["doc"]⟩ = .ok ["doc"] :=
  C6_build_cache_hit ⟨true, some ["doc"], ["doc"]⟩ ["doc"] rfl rfl

/-- C7 counterexample: both failure modes raise the same Python exception
class `FileNotFoundError` (no distinct `IndexNotFoundError` /
`NoDocumentsError` types exist), and `build` with a cached index present
succeeds even when `doc_dir` yields zero documents, so "fails exactly when
zero documents" is false as well. -/
theorem C7_counterexample :
    load_index ⟨true, none, ["d"]⟩ = .error (.fileNotFoundError indexNotFoundMsg)
    ∧ (build_index ⟨true, none, []⟩ false).1 = .error (.fileNotFoundError noDocumentsMsg)
    ∧ PyError.className (.fileNotFoundError indexNotFoundMsg)
        = PyError.className (.fileNotFoundError noDocumentsMsg)
    ∧ (build_index ⟨true, some ["d"], []⟩ false).1 = .ok ["d"] :=
  ⟨rfl, rfl, rfl, rfl⟩

/-- C7 (amended): `load_index` raises exactly when no persisted index
exists; `build_index` (with `force_rebuild=false`) raises exactly when there
is no cached index to reuse and `doc_dir` yields zero documents; both raise
the same exception class `FileNotFoundError`, distinguishable only by
message — callers fall back from load to build by catching
`FileNotFoundError` itself. -/
theorem C7_failure_conditions (fs : FS) :
    (load_index fs = .error (.fileNotFoundError indexNotFoundMsg)
        ↔ fs.persisted = none)
    ∧ ((build_index fs false).1 = .error (.fileNotFoundError noDocumentsMsg)
        ↔ (fs.persisted = none ∧ fs.docs = []))
    ∧ PyError.className (.fileNotFoundError indexNotFoundMsg)
        = PyError.className (.fileNotFoundError noDocumentsMsg) := by
  obtain ⟨d, p, dc⟩ := fs
  refine ⟨?_, ?_, rfl⟩
  · cases p <;> simp [load_index]
  · cases p with
    | none =>
      cases dc with
      | nil =>
        show Except.error (PyError.fileNotFoundError noDocumentsMsg)
            = Except.error (PyError.fileNotFoundError noDocumentsMsg)
          ↔ ((none : Option Index) = none ∧ ([] : List Doc) = [])
        simp
      | cons x xs =>
        show (Except.ok (x :: xs) : Except PyError Index)
            = Except.error (PyError.fileNotFoundError noDocumentsMsg)
          ↔ ((none : Option Index) = none ∧ x :: xs = ([] : List Doc))
        simp
    | some idx =>
      show (Except.ok idx : Except PyError Index)
          = Except.error (PyError.fileNotFoundError noDocumentsMsg)
        ↔ (some idx = (none : Option Index) ∧ dc = ([] : List Doc))
      simp

/-- C5: a retrieval failure inside `analyze_feedings` is never propagated:
the orchestrator substitutes the no-context sentinel string
"Medical context unavailable.", keeps the sources empty, and still builds
the prompt and the reasoning-service request (with the mode-specific token
budget) — `analyze_feedings` is total in the retrieval outcome. -/
theorem C5_retrieval_failure_not_fatal (fmt : PyFmt) (today : ℤ) (baby : Baby)
    (feedings : List Feeding) (ctx : AnalysisContext) (weights : List Weight)
    (question : Option String) (exc : String) :
    (analyze_feedings fmt today baby feedings ctx weights question (.error exc)).rag_context
      = "Medical context unavailable."
    ∧ (analyze_feedings fmt today baby feedings ctx weights question (.error exc)).sources
      = []
    ∧ (analyze_feedings fmt today baby feedings ctx weights question (.error exc)).prompt
      = _build_prompt fmt today baby feedings "Medical context unavailable." ctx
          weights question
    ∧ (analyze_feedings fmt today baby feedings ctx weights question (.error exc)).max_tokens
      = (if _is_report_request question then MAX_TOKENS else MAX_TOKENS_CONVERSATIONAL) := by
  by_cases h : _is_report_request question <;>
    simp [analyze_feedings, h]

/-- Every passage's source string occurs inside its own context block. -/
theorem formatParts_contains_source (fmt : PyFmt) :
    ∀ (i : ℕ) (nodes : List NodeWithScore), ∀ node ∈ nodes,
      ∃ p ∈ formatParts fmt i nodes,
        pyIn (node.file_name.getD "source inconnue") p = true := by
  intro i nodes
  induction nodes generalizing i with
  | nil => intro node h; cases h
  | cons a rest ih =>
    intro node hmem
    simp only [formatParts]
    rcases List.mem_cons.mp hmem with h | h
    · subst h
      refine ⟨_, List.mem_cons_self _ _, ?_⟩
      apply pyIn_append_left
      apply pyIn_append_left
      apply pyIn_append_left
      apply pyIn_append_left
      exact pyIn_append_right _ (pyIn_self _)
    · obtain ⟨p, hm, hin⟩ := ih (i + 1) node h
      exact ⟨p, List.mem_cons_of_mem _ hm, hin⟩

/-- The first context block always starts with the enumeration marker. -/
theorem formatParts_head (fmt : PyFmt) (i : ℕ) (nodes : List NodeWithScore)
    (hne : nodes ≠ []) :
    ∃ p ∈ formatParts fmt i nodes, pyIn "--- Extrait " p = true := by
  cases nodes with
  | nil => exact absurd rfl hne
  | cons a rest =>
    simp only [formatParts]
    refine ⟨_, List.mem_cons_self _ _, ?_⟩
    apply pyIn_append_left
    apply pyIn_append_left
    apply pyIn_append_left
    apply pyIn_append_left
    apply pyIn_append_left
    apply pyIn_append_left
    apply pyIn_append_left
    exact pyIn_self _

/-- C8: `format_context` returns the fixed no-context sentinel exactly on
the empty passage list; on any non-empty list the output contains every
passage's source string and is distinct from the sentinel. -/
theorem C8_format_context (fmt : PyFmt) (nodes : List NodeWithScore)
    (hne : nodes ≠ []) :
    format_context fmt [] = noContextSentinel
    ∧ (∀ node ∈ nodes,
        pyIn (node.file_name.getD "source inconnue") (format_context fmt nodes) = true)
    ∧ format_context fmt nodes ≠ noContextSentinel := by
  have hfc : format_context fmt nodes = pyJoin "\n\n" (formatParts fmt 1 nodes) := by
    simp [format_context, hne]
  refine ⟨rfl, ?_, ?_⟩
  · intro node hmem
    obtain ⟨p, hp_mem, hp_in⟩ := formatParts_contains_source fmt 1 nodes node hmem
    rw [hfc]
    exact pyIn_iff.mpr ((pyIn_iff.mp hp_in).trans (pyIn_pyJoin hp_mem))
  · intro heq
    obtain ⟨p, hp_mem, hp_in⟩ := formatParts_head fmt 1 nodes hne
    have hmark : pyIn "--- Extrait " (format_context fmt nodes) = true := by
      rw [hfc]
      exact pyIn_iff.mpr ((pyIn_iff.mp hp_in).trans (pyIn_pyJoin hp_mem))
    rw [heq] at hmark
    exact absurd hmark (by decide)

/-- Witness for C8 at a concrete one-passage list. -/
theorem C8_format_context_witness :
    format_context fmt0 [] = noContextSentinel
    ∧ pyIn (node0.file_name.getD "source inconnue") (format_context fmt0 [node0]) = true
    ∧ format_context fmt0 [node0] ≠ noContextSentinel := by
  have h := C8_format_context fmt0 [node0] (by simp)
  exact ⟨h.1, h.2.1 node0 (by simp), h.2.2⟩

/-- C3: every `AnalysisContext` the endpoint constructs satisfies the window
invariant: `end > start`; `hours_elapsed` is exactly the window length in
hours; the partial flag holds iff `now − end` is under 30 minutes (false at
the boundary and above); and the baseline window ends at `start`, starts at
`start − hours_elapsed` hours, and has length `end − start`. -/
theorem C3_window_invariant (fmt : PyFmt) (dbF : ℚ → ℚ → List Feeding)
    (dbW : ℤ → ℤ → List Weight) (retr : Except String (List NodeWithScore))
    (baby : Baby) (now : ℚ) (s? e? : Option ℚ) (question : Option String)
    (r : RouteOk)
    (h : analyze_baby_feedings fmt dbF dbW retr baby now s? e? question = .ok r) :
    r.ctx.start < r.ctx.«end»
    ∧ r.ctx.hours_elapsed = (r.ctx.«end» - r.ctx.start) / 3600
    ∧ r.ctx.hours_elapsed * 3600 = r.ctx.«end» - r.ctx.start
    ∧ (r.ctx.partial_flag = true ↔ now - r.ctx.«end» < 30 * 60)
    ∧ r.baseline_end = r.ctx.start
    ∧ r.baseline_start = r.ctx.start - r.ctx.hours_elapsed * 3600
    ∧ r.ctx.start - r.baseline_start = r.ctx.«end» - r.ctx.start := by
  simp only [analyze_baby_feedings] at h
  split at h
  · exact absurd h (by simp)
  next h1 =>
    split at h
    · exact absurd h (by simp)
    next h2 =>
      injection h with hr
      subst hr
      have hmul : (e?.getD now - s?.getD (midnightOf now)) / 3600 * 3600
          = e?.getD now - s?.getD (midnightOf now) :=
        div_mul_cancel₀ _ (by norm_num)
      refine ⟨not_le.mp h1, rfl, hmul, ?_, rfl, rfl, ?_⟩
      · dsimp only
        rw [decide_eq_true_iff]
        norm_num [_PARTIAL_THRESHOLD_MINUTES]
      · dsimp only
        rw [hmul]
        ring

/-- Witness for C3 at a concrete request (now 02:00 on day 0, default
window, one recorded feeding). -/
theorem C3_window_invariant_witness :
    ∃ r, analyze_baby_feedings fmt0 dbF0 dbW0 (.error "exc") baby0 7200 none none none
        = .ok r
      ∧ r.ctx.start < r.ctx.«end»
      ∧ (r.ctx.partial_flag = true ↔ 7200 - r.ctx.«end» < 30 * 60)
      ∧ r.ctx.start - r.baseline_start = r.ctx.«end» - r.ctx.start := by
  have hok : ∃ r0,
      analyze_baby_feedings fmt0 dbF0 dbW0 (.error "exc") baby0 7200 none none none
        = .ok r0 := by
    simp only [analyze_baby_feedings, midnightOf, dayOf, dbF0, questionFalsy,
      Option.getD_none]
    norm_num
  obtain ⟨r, hr⟩ := hok
  have h := C3_window_invariant fmt0 dbF0 dbW0 (.error "exc") baby0 7200 none none none r hr
  exact ⟨r, hr, h.1, h.2.2.2.1, h.2.2.2.2.2.2⟩

/-- C4: the endpoint computes `feedings_expected` as
`max(1, round(expected_rate(age_days) × hours_elapsed))` with Python
banker's rounding, the age step function takes the documented values, and
the estimate is always at least 1. -/
theorem C4_expected_feedings (fmt : PyFmt) (dbF : ℚ → ℚ → List Feeding)
    (dbW : ℤ → ℤ → List Weight) (retr : Except String (List NodeWithScore))
    (baby : Baby) (now : ℚ) (s? e? : Option ℚ) (question : Option String)
    (r : RouteOk)
    (h : analyze_baby_feedings fmt dbF dbW retr baby now s? e? question = .ok r) :
    r.ctx.feedings_expected
      = max 1 (pyRound (_expected_feedings_per_hour (dayOf now - baby.birth_date)
          * r.ctx.hours_elapsed))
    ∧ 1 ≤ r.ctx.feedings_expected
    ∧ _expected_feedings_per_hour 10 = 9 / 24
    ∧ _expected_feedings_per_hour 45 = 7.5 / 24
    ∧ _expected_feedings_per_hour 90 = 6 / 24
    ∧ _expected_feedings_per_hour 200 = 5 / 24 := by
  simp only [analyze_baby_feedings] at h
  split at h
  · exact absurd h (by simp)
  next h1 =>
    split at h
    · exact absurd h (by simp)
    next h2 =>
      injection h with hr
      subst hr
      refine ⟨rfl, le_max_left 1 _, ?_, ?_, ?_, ?_⟩ <;>
        norm_num [_expected_feedings_per_hour]

/-- Witness for C4 at the same concrete request as C3. -/
theorem C4_expected_feedings_witness :
    ∃ r, analyze_baby_feedings fmt0 dbF0 dbW0 (.error "exc") baby0 7200 none none none
        = .ok r
      ∧ r.ctx.feedings_expected
          = max 1 (pyRound (_expected_feedings_per_hour (dayOf 7200 - baby0.birth_date)
              * r.ctx.hours_elapsed))
      ∧ 1 ≤ r.ctx.feedings_expected := by
  have hok : ∃ r0,
      analyze_baby_feedings fmt0 dbF0 dbW0 (.error "exc") baby0 7200 none none none
        = .ok r0 := by
    simp only [analyze_baby_feedings, midnightOf, dayOf, dbF0, questionFalsy,
      Option.getD_none]
    norm_num
  obtain ⟨r, hr⟩ := hok
  have h := C4_expected_feedings fmt0 dbF0 dbW0 (.error "exc") baby0 7200 none none none r hr
  exact ⟨r, hr, h.1, h.2.1⟩

/-- A conversational question always appears verbatim in the prompt built
for it. -/
theorem prompt_contains_question (fmt : PyFmt) (today : ℤ) (baby : Baby)
    (feedings : List Feeding) (rag : String) (ctx : AnalysisContext)
    (weights : List Weight) (q0 : String)
    (hrep : _is_report_request (some q0) = false) :
    pyIn q0 (_build_prompt fmt today baby feedings rag ctx weights (some q0)) = true := by
  simp only [_build_prompt, hrep]
  rw [if_neg (by simp)]
  apply pyIn_append_left
  exact pyIn_append_right _ (pyIn_self q0)

/-- The prompt `analyze_feedings` sends is exactly the one `_build_prompt`
produces from the retrieval outcome. -/
theorem analyze_feedings_prompt (fmt : PyFmt) (today : ℤ) (baby : Baby)
    (feedings : List Feeding) (ctx : AnalysisContext) (weights : List Weight)
    (question : Option String) (retrieval : Except String (List NodeWithScore)) :
    (analyze_feedings fmt today baby feedings ctx weights question retrieval).prompt
      = _build_prompt fmt today baby feedings
          (match retrieval with
            | .ok nodes => format_context fmt nodes
            | .error _ => "Medical context unavailable.") ctx weights question := by
  by_cases h : _is_report_request question <;>
    cases retrieval <;> simp [analyze_feedings, h]

/-- C9: the endpoint surfaces the 404 "nothing to analyze" error exactly
when the window has no feedings and the question is absent (falsy); with a
conversational question and an empty window it proceeds, hands the empty
feeding list to the orchestrator, and the produced prompt contains the
parent question verbatim. -/
theorem C9_no_data_vs_conversational (fmt : PyFmt) (dbF : ℚ → ℚ → List Feeding)
    (dbW : ℤ → ℤ → List Weight) (retr : Except String (List NodeWithScore))
    (baby : Baby) (now : ℚ) (s? e? : Option ℚ) (question : Option String)
    (hw : ¬ e?.getD now ≤ s?.getD (midnightOf now)) :
    ((∃ d, analyze_baby_feedings fmt dbF dbW retr baby now s? e? question
        = .error (.notFound d))
      ↔ (dbF (s?.getD (midnightOf now)) (e?.getD now) = []
          ∧ questionFalsy question = true))
    ∧ (∀ q0, question = some q0 → _is_report_request (some q0) = false →
        dbF (s?.getD (midnightOf now)) (e?.getD now) = [] →
        ∃ r, analyze_baby_feedings fmt dbF dbW retr baby now s? e? question = .ok r
          ∧ r.feedings = []
          ∧ pyIn q0 r.call.prompt = true) := by
  constructor
  · simp only [analyze_baby_feedings, if_neg hw]
    by_cases h2 : dbF (s?.getD (midnightOf now)) (e?.getD now) = []
        ∧ questionFalsy question = true
    · rw [if_pos h2]
      exact ⟨fun _ => h2, fun _ => ⟨_, rfl⟩⟩
    · rw [if_neg h2]
      constructor
      · rintro ⟨d, hd⟩
        exact absurd hd (by simp)
      · intro hc
        exact absurd hc h2
  · intro q0 hq hrep hempty
    subst hq
    have hq0ne : q0 ≠ "" := by
      intro he
      subst he
      simp [_is_report_request] at hrep
    have h2 : ¬ (dbF (s?.getD (midnightOf now)) (e?.getD now) = []
        ∧ questionFalsy (some q0) = true) := by
      rintro ⟨-, hf⟩
      simp only [questionFalsy, decide_eq_true_iff] at hf
      exact hq0ne hf
    simp only [analyze_baby_feedings, if_neg hw, if_neg h2]
    refine ⟨_, rfl, hempty, ?_⟩
    show pyIn q0 (analyze_feedings fmt (dayOf now) baby
      (dbF (s?.getD (midnightOf now)) (e?.getD now)) _ _ (some q0) retr).prompt = true
    rw [analyze_feedings_prompt]
    exact prompt_contains_question fmt _ baby _ _ _ _ q0 hrep

/-- Witness for C9: empty window — no question yields the 404, the
conversational question "Is she eating enough today?" proceeds and lands
verbatim in the prompt. -/
theorem C9_no_data_vs_conversational_witness :
    (∃ d, analyze_baby_feedings fmt0 dbFempty dbW0 (.error "exc") baby0 7200 none none none
        = .error (.notFound d))
    ∧ (∃ r, analyze_baby_feedings fmt0 dbFempty dbW0 (.error "exc") baby0 7200 none none
          (some "Is she eating enough today?") = .ok r
        ∧ r.feedings = []
        ∧ pyIn "Is she eating enough today?" r.call.prompt = true) := by
  have hw : ¬ (none : Option ℚ).getD (7200 : ℚ)
      ≤ (none : Option ℚ).getD (midnightOf 7200) := by
    simp only [Option.getD_none, midnightOf, dayOf]
    norm_num
  have h1 := C9_no_data_vs_conversational fmt0 dbFempty dbW0 (.error "exc") baby0
    7200 none none none hw
  have h2 := C9_no_data_vs_conversational fmt0 dbFempty dbW0 (.error "exc") baby0
    7200 none none (some "Is she eating enough today?") hw
  exact ⟨h1.1.mpr ⟨rfl, rfl⟩, h2.2 _ rfl (by decide) rfl⟩

end Babytrack

section ConcreteChecks
open Babytrack
example : _is_report_request (some "give me a detailed report") = true := by decide
example : _is_report_request (some "is she eating enough?") = false := by decide
example : _is_report_request (some "  ANALYZE this ") = true := by decide
example : _is_report_request_label (some "full report please") = true := by decide
example : pyRound (1/2) = 0 := by simp only [pyRound]; norm_num
example : pyRound (3/2) = 2 := by simp only [pyRound]; norm_num
example : pyRound (-1/2) = 0 := by simp only [pyRound]; norm_num
example : pyRound (7/3) = 2 := by simp only [pyRound]; norm_num
example : _expected_feedings_per_hour 45 = 5/16 := by norm_num [_expected_feedings_per_hour]
example : (retrieveProcess (fun _ _ _ => []) "q" 4 none 2 ⟨false, none, []⟩).1 = 2 := by decide
example : build_index ⟨true, some ["d"], []⟩ false = (.ok ["d"], ⟨true, some ["d"], []⟩) := rfl
end ConcreteChecks
